import Mathlib

/- Verification development for the OKLCH grade Blink kernel
   (src/blink/oklch_grade_kernel.cpp, the full kernel with hue bands,
   target correction and hue-curve LUT, lines 192-572).

   Modelling conventions:
   - float arithmetic is embedded as exact rational arithmetic;
   - the transcendental primitives of the Blink math surface that the
     kernel calls (cos, sin, atan2, sqrt, and pow(x, 1/3)) are collected
     in an explicit operations structure `TrigOps` and every definition
     is parametric in it; all theorems below are either parametric in
     these operations or independent of them;
   - the hue-curve LUT image together with the host's bilinear sampler
     is modelled as a function from the two sampling coordinates to a
     4-channel value, exactly as the kernel consumes it through
     `bilinear(hueLUT, x, y)`. -/

namespace Oklch

/-- A 3-component float vector (float3 in the kernel). -/
structure Vec3 where
  x : ℚ
  y : ℚ
  z : ℚ
deriving DecidableEq

/-- A 4-component float vector (float4 in the kernel). -/
structure Vec4 where
  x : ℚ
  y : ℚ
  z : ℚ
  w : ℚ
deriving DecidableEq

/-- Blink clamp(x, lo, hi). -/
def clampf (x lo hi : ℚ) : ℚ := min (max x lo) hi

/-- clamp01, kernel line 295. -/
def clamp01 (x : ℚ) : ℚ := clampf x 0 1

/-- The transcendental primitives the kernel calls, abstracted.
    pow3 x stands for pow(x, 1.0f/3.0f) on a positive argument. -/
structure TrigOps where
  cos : ℚ → ℚ
  sin : ℚ → ℚ
  atan2 : ℚ → ℚ → ℚ
  sqrt : ℚ → ℚ
  pow3 : ℚ → ℚ

/-- signed_cbrt, kernel lines 289-293. -/
def signed_cbrt (ops : TrigOps) (x : ℚ) : ℚ :=
  if x = 0 then 0
  else if x > 0 then ops.pow3 x
  else -ops.pow3 (-x)

/-- smooth_ramp, kernel lines 299-302: the cubic Hermite smoothstep. -/
def smooth_ramp (edge0 edge1 x : ℚ) : ℚ :=
  let t := clampf ((x - edge0) / (edge1 - edge0)) 0 1
  t * t * (3 - 2 * t)

/-- wrap_hue_deg, kernel lines 304-307: floor-based modulo into [0, 360),
    with a non-negative correction branch. -/
def wrap_hue_deg (h : ℚ) : ℚ :=
  let wrapped := h - 360 * (⌊h / 360⌋ : ℚ)
  if wrapped < 0 then wrapped + 360 else wrapped

/-- hue_delta, kernel lines 311-318: shortest signed angular distance,
    in [-180, 180]. -/
def hue_delta (a b : ℚ) : ℚ :=
  let d := wrap_hue_deg b - wrap_hue_deg a
  let d := if d > 180 then d - 360 else d
  let d := if d < -180 then d + 360 else d
  d

/-- hue_band_weight, kernel lines 323-332: cosine-window band weight. -/
def hue_band_weight (ops : TrigOps) (current_hue centre_deg half_width_deg : ℚ) : ℚ :=
  let delta := hue_delta current_hue centre_deg
  let norm := delta / half_width_deg
  if norm < -1 ∨ norm > 1 then 0
  else
    let pi : ℚ := 3.1415926536
    0.5 * (1 + ops.cos (pi * norm))

/-- The grade parameter set of the kernel (param section, lines 197-251). -/
structure Params where
  l_gain : ℚ
  l_offset : ℚ
  l_contrast : ℚ
  l_pivot : ℚ
  c_gain : ℚ
  c_offset : ℚ
  hue_shift_deg : ℚ
  hue_chroma_threshold : ℚ
  hue_shift_red : ℚ
  hue_shift_yellow : ℚ
  hue_shift_green : ℚ
  hue_shift_cyan : ℚ
  hue_shift_blue : ℚ
  hue_shift_magenta : ℚ
  hue_target_deg : ℚ
  hue_target_shift : ℚ
  hue_target_falloff_deg : ℚ
  mix : ℚ
  clamp_output : Bool
  bypass : Bool
  debug_mode : ℤ
  hue_curves_enable : Bool
  hue_lut_width : ℤ
  hue_lut_connected : Bool
deriving DecidableEq

/-- The defaults installed by define(), kernel lines 253-283. -/
def defaultParams : Params where
  l_gain := 1
  l_offset := 0
  l_contrast := 1
  l_pivot := 0.18
  c_gain := 1
  c_offset := 0
  hue_shift_deg := 0
  hue_chroma_threshold := 0.05
  hue_shift_red := 0
  hue_shift_yellow := 0
  hue_shift_green := 0
  hue_shift_cyan := 0
  hue_shift_blue := 0
  hue_shift_magenta := 0
  hue_target_deg := 0
  hue_target_shift := 0
  hue_target_falloff_deg := 25
  mix := 1
  clamp_output := false
  bypass := false
  debug_mode := 0
  hue_curves_enable := false
  hue_lut_width := 360
  hue_lut_connected := false

/-- sample_hue_lut, kernel lines 334-340.  The image plus the host's
    bilinear filter is the function argument. -/
def sample_hue_lut (p : Params) (lut : ℚ → ℚ → Vec4) (hue_deg : ℚ) : Vec3 :=
  let w := max ((p.hue_lut_width : ℚ)) 2
  let norm := wrap_hue_deg hue_deg / 360
  let lut_x := norm * (w - 1)
  let lut_val := lut (lut_x + 0.5) 0.5
  ⟨lut_val.x, lut_val.y, lut_val.z⟩

/-- linear_srgb_to_xyz, kernel lines 346-355. -/
def linear_srgb_to_xyz (rgb : Vec3) : Vec3 :=
  ⟨0.4123907992659595 * rgb.x + 0.3575843393838780 * rgb.y + 0.1804807884018343 * rgb.z,
   0.2126390058715104 * rgb.x + 0.7151686787677559 * rgb.y + 0.0721923153607337 * rgb.z,
   0.0193308187155918 * rgb.x + 0.1191947797946260 * rgb.y + 0.9505321522496606 * rgb.z⟩

/-- xyz_to_linear_srgb, kernel lines 357-366. -/
def xyz_to_linear_srgb (xyz : Vec3) : Vec3 :=
  ⟨3.2409699419045213 * xyz.x + -1.5373831775700935 * xyz.y + -0.4986107602930033 * xyz.z,
   -0.9692436362808798 * xyz.x + 1.8759675015077206 * xyz.y + 0.0415550574071756 * xyz.z,
   0.0556300796969936 * xyz.x + -0.2039769588889766 * xyz.y + 1.0569715142428786 * xyz.z⟩

/-- xyz_to_oklab, kernel lines 368-389. -/
def xyz_to_oklab (ops : TrigOps) (xyz : Vec3) : Vec3 :=
  let l := 0.8190224379967030 * xyz.x + 0.3619062600528904 * xyz.y + -0.1288737815209879 * xyz.z
  let m := 0.0329836539323885 * xyz.x + 0.9292868615863434 * xyz.y + 0.0361446663506424 * xyz.z
  let s := 0.0481771893596242 * xyz.x + 0.2642395317527308 * xyz.y + 0.6335478284694309 * xyz.z
  let l0 := signed_cbrt ops l
  let m0 := signed_cbrt ops m
  let s0 := signed_cbrt ops s
  ⟨0.2104542683093140 * l0 + 0.7936177747023054 * m0 + -0.0040720430116193 * s0,
   1.9779985324311684 * l0 + -2.4285922420485799 * m0 + 0.4505937096174110 * s0,
   0.0259040424655478 * l0 + 0.7827717124575296 * m0 + -0.8086757549230774 * s0⟩

/-- oklab_to_xyz, kernel lines 391-412. -/
def oklab_to_xyz (lab : Vec3) : Vec3 :=
  let l0 := 1 * lab.x + 0.3963377773761749 * lab.y + 0.2158037573099136 * lab.z
  let m0 := 1 * lab.x + -0.1055613458156586 * lab.y + -0.0638541728258133 * lab.z
  let s0 := 1 * lab.x + -0.0894841775298119 * lab.y + -1.2914855480194092 * lab.z
  let l := l0 * l0 * l0
  let m := m0 * m0 * m0
  let s := s0 * s0 * s0
  ⟨1.2268798758459243 * l + -0.5578149944602171 * m + 0.2813910456659647 * s,
   -0.0405757452148008 * l + 1.1122868032803170 * m + -0.0717110580655164 * s,
   -0.0763729366746601 * l + -0.4214933324022432 * m + 1.5869240198367816 * s⟩

/-- oklab_to_oklch, kernel lines 414-427. -/
def oklab_to_oklch (ops : TrigOps) (lab : Vec3) : Vec3 :=
  let c := ops.sqrt (lab.y * lab.y + lab.z * lab.z)
  let h := ops.atan2 lab.z lab.y * 57.2957795131
  let h := if h < 0 then h + 360 else h
  let h := if c ≤ 0.000004 then 0 else h
  ⟨lab.x, c, h⟩

/-- oklch_to_oklab, kernel lines 429-434. -/
def oklch_to_oklab (ops : TrigOps) (lch : Vec3) : Vec3 :=
  let rad := lch.z * (3.1415926536 / 180)
  ⟨lch.x, lch.y * ops.cos rad, lch.y * ops.sin rad⟩

/-- The L tone grade of process(), kernel lines 455-458 and 461-462:
    gain/offset, contrast around a floored pivot, floor at 0. -/
def toneGradeL (p : Params) (L : ℚ) : ℚ :=
  let graded_L := (L * p.l_gain) + p.l_offset
  let safe_pivot := max p.l_pivot 0
  let safe_contrast := max p.l_contrast 0
  let graded_L := ((graded_L - safe_pivot) * safe_contrast) + safe_pivot
  if graded_L < 0 then 0 else graded_L

/-- The C tone grade of process(), kernel lines 459 and 463-464. -/
def toneGradeC (p : Params) (C : ℚ) : ℚ :=
  let graded_C := (C * p.c_gain) + p.c_offset
  if graded_C < 0 then 0 else graded_C

/-- The gated per-hue L/C curve multipliers of process(),
    kernel lines 467-473; identity when the gate fails. -/
def hueCurvesLC (p : Params) (lut : ℚ → ℚ → Vec4) (origH gL gC : ℚ) : ℚ × ℚ :=
  if p.hue_curves_enable ∧ p.hue_lut_connected ∧ 1 < p.hue_lut_width then
    let lutv := sample_hue_lut p lut origH
    let l_curve_mult := lutv.z * 2
    let c_curve_mult := lutv.y * 2
    (max (gL * l_curve_mult) 0, max (gC * c_curve_mult) 0)
  else (gL, gC)

/-- The chroma-based fade weight of process(), kernel lines 481-482. -/
def chromaWeight (p : Params) (origC : ℚ) : ℚ :=
  let safe_threshold := max p.hue_chroma_threshold 0.0001
  smooth_ramp 0 safe_threshold origC

/-- The accumulated hue shift of process(), kernel lines 484-523:
    global shift, the six band windows, the duplicated red window at
    360, the target correction, and the gated curve-derived shift. -/
def totalHueShift (ops : TrigOps) (p : Params) (lut : ℚ → ℚ → Vec4) (origC origH : ℚ) : ℚ :=
  let chroma_weight := chromaWeight p origC
  let total := p.hue_shift_deg * chroma_weight
  let half : ℚ := 60
  let total := total + p.hue_shift_red * hue_band_weight ops origH 0 half * chroma_weight
  let total := total + p.hue_shift_yellow * hue_band_weight ops origH 85 half * chroma_weight
  let total := total + p.hue_shift_green * hue_band_weight ops origH 145 half * chroma_weight
  let total := total + p.hue_shift_cyan * hue_band_weight ops origH 195 half * chroma_weight
  let total := total + p.hue_shift_blue * hue_band_weight ops origH 265 half * chroma_weight
  let total := total + p.hue_shift_magenta * hue_band_weight ops origH 325 half * chroma_weight
  let total := total + p.hue_shift_red * hue_band_weight ops origH 360 half * chroma_weight
  let safe_target_falloff := max p.hue_target_falloff_deg 0.1
  let target_weight :=
    hue_band_weight ops origH (wrap_hue_deg p.hue_target_deg) safe_target_falloff * chroma_weight
  let total := total + p.hue_target_shift * target_weight
  if p.hue_curves_enable ∧ p.hue_lut_connected ∧ 1 < p.hue_lut_width then
    total + ((sample_hue_lut p lut origH).x - 0.5) * 360 * chroma_weight
  else total

/-- The graded hue of process(), kernel line 525. -/
def gradedH (ops : TrigOps) (p : Params) (lut : ℚ → ℚ → Vec4) (origC origH : ℚ) : ℚ :=
  wrap_hue_deg (origH + totalHueShift ops p lut origC origH)

/-- The clamped working pixel of process(), kernel lines 442-443. -/
def inClamped (px : Vec4) : Vec3 :=
  ⟨max 0 px.x, max 0 px.y, max 0 px.z⟩

/-- The fully graded RGB of process(): forward conversion, tone grade,
    curve multipliers, hue accumulation, inverse conversion and the
    optional output clamp, kernel lines 450-525 and 556-565. -/
def gradedRGB (ops : TrigOps) (p : Params) (lut : ℚ → ℚ → Vec4) (in_rgb : Vec3) : Vec3 :=
  let current_lch := oklab_to_oklch ops (xyz_to_oklab ops (linear_srgb_to_xyz in_rgb))
  let lc := hueCurvesLC p lut current_lch.z (toneGradeL p current_lch.x) (toneGradeC p current_lch.y)
  let out_lab := oklch_to_oklab ops ⟨lc.1, lc.2, gradedH ops p lut current_lch.y current_lch.z⟩
  let graded_rgb := xyz_to_linear_srgb (oklab_to_xyz out_lab)
  if p.clamp_output then ⟨clamp01 graded_rgb.x, clamp01 graded_rgb.y, clamp01 graded_rgb.z⟩
  else graded_rgb

/-- process(), kernel lines 440-571: bypass, the graded intermediate
    values, the debug dispatch, and the final blend with alpha copied
    from the source pixel. -/
def process (ops : TrigOps) (p : Params) (lut : ℚ → ℚ → Vec4) (src_pixel : Vec4) : Vec4 :=
  let in_rgb := inClamped src_pixel
  if p.bypass then src_pixel
  else
    let current_lch := oklab_to_oklch ops (xyz_to_oklab ops (linear_srgb_to_xyz in_rgb))
    let lc := hueCurvesLC p lut current_lch.z (toneGradeL p current_lch.x) (toneGradeC p current_lch.y)
    let graded_L := lc.1
    let graded_C := lc.2
    let chroma_weight := chromaWeight p current_lch.y
    let graded_H := gradedH ops p lut current_lch.y current_lch.z
    if p.debug_mode = 1 then ⟨graded_L, graded_L, graded_L, src_pixel.w⟩
    else if p.debug_mode = 2 then ⟨graded_C, graded_C, graded_C, src_pixel.w⟩
    else if p.debug_mode = 3 then
      let h_vis := graded_H / 360
      ⟨h_vis, h_vis, h_vis, src_pixel.w⟩
    else if p.debug_mode = 4 then ⟨chroma_weight, chroma_weight, chroma_weight, src_pixel.w⟩
    else if p.debug_mode = 5 then
      if p.hue_curves_enable ∧ p.hue_lut_connected ∧ 1 < p.hue_lut_width then
        let lutv := sample_hue_lut p lut current_lch.z
        ⟨lutv.x, lutv.y, lutv.z, src_pixel.w⟩
      else ⟨0.5, 0.5, 0.5, src_pixel.w⟩
    else
      let graded_rgb := gradedRGB ops p lut in_rgb
      let t := clampf p.mix 0 1
      ⟨in_rgb.x + (graded_rgb.x - in_rgb.x) * t,
       in_rgb.y + (graded_rgb.y - in_rgb.y) * t,
       in_rgb.z + (graded_rgb.z - in_rgb.z) * t,
       src_pixel.w⟩

/-- The accumulated hue shift with the curve gate off: the value
    totalHueShift takes whenever the three gating conditions of kernel
    line 519 do not all hold.  Proof device for the gating claims. -/
def totalHueShiftBase (ops : TrigOps) (p : Params) (origC origH : ℚ) : ℚ :=
  let chroma_weight := chromaWeight p origC
  let total := p.hue_shift_deg * chroma_weight
  let half : ℚ := 60
  let total := total + p.hue_shift_red * hue_band_weight ops origH 0 half * chroma_weight
  let total := total + p.hue_shift_yellow * hue_band_weight ops origH 85 half * chroma_weight
  let total := total + p.hue_shift_green * hue_band_weight ops origH 145 half * chroma_weight
  let total := total + p.hue_shift_cyan * hue_band_weight ops origH 195 half * chroma_weight
  let total := total + p.hue_shift_blue * hue_band_weight ops origH 265 half * chroma_weight
  let total := total + p.hue_shift_magenta * hue_band_weight ops origH 325 half * chroma_weight
  let total := total + p.hue_shift_red * hue_band_weight ops origH 360 half * chroma_weight
  let safe_target_falloff := max p.hue_target_falloff_deg 0.1
  let target_weight :=
    hue_band_weight ops origH (wrap_hue_deg p.hue_target_deg) safe_target_falloff * chroma_weight
  total + p.hue_target_shift * target_weight

/-- The fully graded RGB with the curve gate off.  Proof device for the
    gating claims. -/
def gradedRGBBase (ops : TrigOps) (p : Params) (in_rgb : Vec3) : Vec3 :=
  let current_lch := oklab_to_oklch ops (xyz_to_oklab ops (linear_srgb_to_xyz in_rgb))
  let graded_L := toneGradeL p current_lch.x
  let graded_C := toneGradeC p current_lch.y
  let graded_H := wrap_hue_deg (current_lch.z + totalHueShiftBase ops p current_lch.y current_lch.z)
  let out_lab := oklch_to_oklab ops ⟨graded_L, graded_C, graded_H⟩
  let graded_rgb := xyz_to_linear_srgb (oklab_to_xyz out_lab)
  if p.clamp_output then ⟨clamp01 graded_rgb.x, clamp01 graded_rgb.y, clamp01 graded_rgb.z⟩
  else graded_rgb

/-- process() with the curve gate off: no part of it reads the LUT.
    Proof device for the gating claims. -/
def processBase (ops : TrigOps) (p : Params) (src_pixel : Vec4) : Vec4 :=
  let in_rgb := inClamped src_pixel
  if p.bypass then src_pixel
  else
    let current_lch := oklab_to_oklch ops (xyz_to_oklab ops (linear_srgb_to_xyz in_rgb))
    let graded_L := toneGradeL p current_lch.x
    let graded_C := toneGradeC p current_lch.y
    let chroma_weight := chromaWeight p current_lch.y
    let graded_H := wrap_hue_deg (current_lch.z + totalHueShiftBase ops p current_lch.y current_lch.z)
    if p.debug_mode = 1 then ⟨graded_L, graded_L, graded_L, src_pixel.w⟩
    else if p.debug_mode = 2 then ⟨graded_C, graded_C, graded_C, src_pixel.w⟩
    else if p.debug_mode = 3 then
      let h_vis := graded_H / 360
      ⟨h_vis, h_vis, h_vis, src_pixel.w⟩
    else if p.debug_mode = 4 then ⟨chroma_weight, chroma_weight, chroma_weight, src_pixel.w⟩
    else if p.debug_mode = 5 then ⟨0.5, 0.5, 0.5, src_pixel.w⟩
    else
      let graded_rgb := gradedRGBBase ops p in_rgb
      let t := clampf p.mix 0 1
      ⟨in_rgb.x + (graded_rgb.x - in_rgb.x) * t,
       in_rgb.y + (graded_rgb.y - in_rgb.y) * t,
       in_rgb.z + (graded_rgb.z - in_rgb.z) * t,
       src_pixel.w⟩

/-- Concrete instantiation of the abstract transcendental primitives,
    used to evaluate witnesses and counterexamples on closed inputs. -/
def testOps : TrigOps where
  cos := fun _ => 1
  sin := fun _ => 0
  atan2 := fun _ _ => 0
  sqrt := fun _ => 0
  pow3 := fun _ => 0

/-- A concrete flat LUT for witnesses and counterexamples. -/
def testLut : ℚ → ℚ → Vec4 := fun _ _ => ⟨0.5, 0.5, 0.5, 1⟩

/-- The defaults with the mix slider at 0. -/
def pMixZero : Params := { defaultParams with mix := 0 }

/-- A concrete HDR pixel with fractional alpha. -/
def pxA : Vec4 := ⟨2, 3, 4, 1/2⟩

/-- A concrete pixel with a strictly negative red channel. -/
def pxNeg : Vec4 := ⟨-1, 0, 0, 1⟩

/-- The correction branch of wrap_hue_deg is dead in exact arithmetic:
    the floor-based residue is already non-negative. -/
theorem wrap_hue_deg_eq (h : ℚ) : wrap_hue_deg h = h - 360 * (⌊h / 360⌋ : ℚ) := by
  unfold wrap_hue_deg
  have h1 : ((⌊h / 360⌋ : ℤ) : ℚ) ≤ h / 360 := Int.floor_le _
  have e : 360 * (h / 360) = h := by field_simp
  have hg : 0 ≤ h - 360 * ((⌊h / 360⌋ : ℤ) : ℚ) := by nlinarith
  rw [if_neg (not_lt.2 hg)]

/-- wrap_hue_deg lands in the half-open interval from 0 to 360. -/
theorem wrap_hue_deg_bounds (h : ℚ) : 0 ≤ wrap_hue_deg h ∧ wrap_hue_deg h < 360 := by
  rw [wrap_hue_deg_eq]
  have h1 : ((⌊h / 360⌋ : ℤ) : ℚ) ≤ h / 360 := Int.floor_le _
  have h2 : h / 360 < (⌊h / 360⌋ : ℤ) + 1 := Int.lt_floor_add_one _
  have e : 360 * (h / 360) = h := by field_simp
  constructor <;> nlinarith

/-- wrap_hue_deg is periodic with period 360. -/
theorem wrap_hue_deg_add_360 (h : ℚ) : wrap_hue_deg (h + 360) = wrap_hue_deg h := by
  unfold wrap_hue_deg
  have e1 : (h + 360) / 360 = h / 360 + 1 := by ring
  rw [e1, Int.floor_add_one]
  have e2 : h + 360 - 360 * (((⌊h / 360⌋ : ℤ) + 1 : ℤ) : ℚ) = h - 360 * ((⌊h / 360⌋ : ℤ) : ℚ) := by
    push_cast
    ring
  rw [e2]

/-- wrap_hue_deg sends 360 to 0. -/
theorem wrap_hue_deg_360 : wrap_hue_deg 360 = 0 := by norm_num [wrap_hue_deg]

/-- wrap_hue_deg fixes 0. -/
theorem wrap_hue_deg_0 : wrap_hue_deg 0 = 0 := by norm_num [wrap_hue_deg]

/-- hue_delta to the centre 360 equals hue_delta to the centre 0. -/
theorem hue_delta_centre_360 (oh : ℚ) : hue_delta oh 360 = hue_delta oh 0 := by
  unfold hue_delta
  rw [wrap_hue_deg_360, wrap_hue_deg_0]

/-- The cosine window centred at 360 is the window centred at 0. -/
theorem hue_band_weight_centre_360 (ops : TrigOps) (oh hw : ℚ) :
    hue_band_weight ops oh 360 hw = hue_band_weight ops oh 0 hw := by
  unfold hue_band_weight
  rw [hue_delta_centre_360]

/-- Closed form of the accumulated hue shift as a flat sum of the
    global, six band, duplicated red, target and gated curve terms. -/
theorem totalHueShift_unfold (ops : TrigOps) (p : Params) (lut : ℚ → ℚ → Vec4) (oc oh : ℚ) :
    totalHueShift ops p lut oc oh =
      p.hue_shift_deg * chromaWeight p oc
      + p.hue_shift_red * hue_band_weight ops oh 0 60 * chromaWeight p oc
      + p.hue_shift_yellow * hue_band_weight ops oh 85 60 * chromaWeight p oc
      + p.hue_shift_green * hue_band_weight ops oh 145 60 * chromaWeight p oc
      + p.hue_shift_cyan * hue_band_weight ops oh 195 60 * chromaWeight p oc
      + p.hue_shift_blue * hue_band_weight ops oh 265 60 * chromaWeight p oc
      + p.hue_shift_magenta * hue_band_weight ops oh 325 60 * chromaWeight p oc
      + p.hue_shift_red * hue_band_weight ops oh 360 60 * chromaWeight p oc
      + p.hue_target_shift *
          (hue_band_weight ops oh (wrap_hue_deg p.hue_target_deg) (max p.hue_target_falloff_deg 0.1)
            * chromaWeight p oc)
      + (if p.hue_curves_enable ∧ p.hue_lut_connected ∧ 1 < p.hue_lut_width
         then ((sample_hue_lut p lut oh).x - 0.5) * 360 * chromaWeight p oc else 0) := by
  unfold totalHueShift
  by_cases hg : p.hue_curves_enable ∧ p.hue_lut_connected ∧ 1 < p.hue_lut_width
  · simp only [if_pos hg]
    try ring
  · simp only [if_neg hg]
    try ring

/-- When the three curve gating conditions do not all hold, process
    never consults the LUT: it equals the LUT-free base kernel. -/
theorem process_gate_off (ops : TrigOps) (p : Params) (lut : ℚ → ℚ → Vec4) (px : Vec4)
    (hg : ¬(p.hue_curves_enable ∧ p.hue_lut_connected ∧ 1 < p.hue_lut_width)) :
    process ops p lut px = processBase ops p px := by
  unfold process processBase gradedRGB gradedRGBBase hueCurvesLC gradedH totalHueShift
    totalHueShiftBase
  simp only [if_neg hg]

/-- Claim C1 (amended).  With bypass off and debug mode 0, the output
    RGB is the clamped input max(0, src) blended toward the graded
    result by clamp(mix, 0, 1); mix = 0 reproduces the CLAMPED input
    (hence the raw input exactly when its RGB channels are all
    non-negative), and mix = 1 reproduces the fully graded result. -/
theorem mix_blend_clamped_input (ops : TrigOps) (p : Params) (lut : ℚ → ℚ → Vec4) (px : Vec4)
    (hb : p.bypass = false) (hd : p.debug_mode = 0) :
    process ops p lut px = Vec4.mk
        ((inClamped px).x + ((gradedRGB ops p lut (inClamped px)).x - (inClamped px).x) * clampf p.mix 0 1)
        ((inClamped px).y + ((gradedRGB ops p lut (inClamped px)).y - (inClamped px).y) * clampf p.mix 0 1)
        ((inClamped px).z + ((gradedRGB ops p lut (inClamped px)).z - (inClamped px).z) * clampf p.mix 0 1)
        px.w
  ∧ (p.mix = 0 → process ops p lut px
      = Vec4.mk (inClamped px).x (inClamped px).y (inClamped px).z px.w)
  ∧ (p.mix = 1 → process ops p lut px
      = Vec4.mk (gradedRGB ops p lut (inClamped px)).x (gradedRGB ops p lut (inClamped px)).y
          (gradedRGB ops p lut (inClamped px)).z px.w) := by
  have h1 : process ops p lut px = Vec4.mk
      ((inClamped px).x + ((gradedRGB ops p lut (inClamped px)).x - (inClamped px).x) * clampf p.mix 0 1)
      ((inClamped px).y + ((gradedRGB ops p lut (inClamped px)).y - (inClamped px).y) * clampf p.mix 0 1)
      ((inClamped px).z + ((gradedRGB ops p lut (inClamped px)).z - (inClamped px).z) * clampf p.mix 0 1)
      px.w := by
    simp only [process, hb, hd]
    norm_num
  refine ⟨h1, fun hm => ?_, fun hm => ?_⟩
  · rw [h1, hm]
    norm_num [clampf]
  · rw [h1, hm]
    have ht : clampf 1 0 1 = 1 := by norm_num [clampf]
    rw [ht]
    simp only [Vec4.mk.injEq]
    refine ⟨by ring, by ring, by ring, trivial⟩

/-- Witness for C1: at the defaults with mix = 0, a pixel with HDR
    channels (2, 3, 4) and fractional alpha comes back unchanged. -/
theorem mix_blend_clamped_input_witness :
    pMixZero.bypass = false ∧ pMixZero.debug_mode = 0 ∧ pMixZero.mix = 0
  ∧ process testOps pMixZero testLut pxA = Vec4.mk 2 3 4 (1/2) := by
  refine ⟨rfl, rfl, rfl, ?_⟩
  have h := (mix_blend_clamped_input testOps pMixZero testLut pxA rfl rfl).2.1 rfl
  rw [h]
  norm_num [inClamped, pxA]

/-- Counterexample to C1 as stated: at mix = 0 the pixel (-1, 0, 0, 1)
    produces output RGB (0, 0, 0) whereas its input red channel is -1,
    so mix = 0 does not reproduce a negative input. -/
theorem mix_zero_negative_input_cex :
    process testOps pMixZero testLut pxNeg = Vec4.mk 0 0 0 1 ∧ pxNeg.x = -1 := by
  constructor
  · norm_num [process, pMixZero, defaultParams, pxNeg, inClamped, gradedRGB, hueCurvesLC,
      toneGradeL, toneGradeC, chromaWeight, smooth_ramp, clampf, gradedH, totalHueShift,
      hue_band_weight, hue_delta, wrap_hue_deg, sample_hue_lut, testLut, testOps,
      oklab_to_oklch, oklch_to_oklab, oklab_to_xyz, xyz_to_oklab, xyz_to_linear_srgb,
      linear_srgb_to_xyz, signed_cbrt, clamp01]
  · rfl

/-- Claim C2 (code evaluation).  At the hue 350, just below 360, the
    window centred at 0 does NOT give weight 0: hue_delta wraps, so
    hue_delta 350 0 = hue_delta 350 360 = 10 and the window centred at
    0 returns exactly the same weight as the window centred at 360;
    the second red lobe therefore double-counts rather than rescuing
    hues just below 360. -/
theorem red_band_second_window_eval :
    hue_delta 350 0 = 10 ∧ hue_delta 350 360 = 10
  ∧ hue_band_weight testOps 350 0 60 = hue_band_weight testOps 350 360 60 := by
  refine ⟨?_, ?_, ?_⟩ <;> norm_num [hue_band_weight, hue_delta, wrap_hue_deg, testOps]

/-- Claim C4.  For every pixel, parameter set and any two LUT contents,
    disabling the curve feature produces output identical to marking
    the LUT disconnected, and in either state the LUT contents never
    influence the output. -/
theorem curve_gating_equiv (ops : TrigOps) (p : Params) (lut lut' : ℚ → ℚ → Vec4) (px : Vec4) :
    process ops { p with hue_curves_enable := false } lut px
      = process ops { p with hue_lut_connected := false } lut' px
  ∧ process ops { p with hue_curves_enable := false } lut px
      = process ops { p with hue_curves_enable := false } lut' px
  ∧ process ops { p with hue_lut_connected := false } lut px
      = process ops { p with hue_lut_connected := false } lut' px := by
  have hE : ¬(({ p with hue_curves_enable := false } : Params).hue_curves_enable
      ∧ ({ p with hue_curves_enable := false } : Params).hue_lut_connected
      ∧ 1 < ({ p with hue_curves_enable := false } : Params).hue_lut_width) :=
    fun hc => Bool.false_ne_true hc.1
  have hC : ¬(({ p with hue_lut_connected := false } : Params).hue_curves_enable
      ∧ ({ p with hue_lut_connected := false } : Params).hue_lut_connected
      ∧ 1 < ({ p with hue_lut_connected := false } : Params).hue_lut_width) :=
    fun hc => Bool.false_ne_true hc.2.1
  refine ⟨?_, ?_, ?_⟩
  · exact (process_gate_off ops _ lut px hE).trans (process_gate_off ops _ lut' px hC).symm
  · exact (process_gate_off ops _ lut px hE).trans (process_gate_off ops _ lut' px hE).symm
  · exact (process_gate_off ops _ lut px hC).trans (process_gate_off ops _ lut' px hC).symm

/-- Claim C5.  For every pixel, parameter set, debug mode, bypass
    state and LUT, the output alpha channel equals the input alpha
    channel exactly. -/
theorem alpha_passthrough (ops : TrigOps) (p : Params) (lut : ℚ → ℚ → Vec4) (px : Vec4) :
    (process ops p lut px).w = px.w := by
  simp only [process]
  repeat' split <;> try rfl

/-- Claim C6.  The tone grade computes graded lightness as
    max(0, (L*gain + offset - max(pivot,0))*max(contrast,0) + max(pivot,0)),
    graded chroma as max(0, C*gain + offset), and the hue stage is
    untouched by the six tone parameters, for all inputs and values. -/
theorem tone_grade_formulas :
    ∀ (ops : TrigOps) (p : Params) (lut : ℚ → ℚ → Vec4) (L C oc oh gl go ct pv cg co : ℚ),
    toneGradeL p L
      = max 0 ((L * p.l_gain + p.l_offset - max p.l_pivot 0) * max p.l_contrast 0 + max p.l_pivot 0)
  ∧ toneGradeC p C = max 0 (C * p.c_gain + p.c_offset)
  ∧ totalHueShift ops
      { p with l_gain := gl, l_offset := go, l_contrast := ct, l_pivot := pv, c_gain := cg, c_offset := co }
      lut oc oh
      = totalHueShift ops p lut oc oh := by
  intro ops p lut L C oc oh gl go ct pv cg co
  refine ⟨?_, ?_, rfl⟩
  · simp only [toneGradeL]
    split
    · rename_i hlt
      exact (max_eq_left (le_of_lt hlt)).symm
    · rename_i hge
      exact (max_eq_right (not_lt.1 hge)).symm
  · simp only [toneGradeC]
    split
    · rename_i hlt
      exact (max_eq_left (le_of_lt hlt)).symm
    · rename_i hge
      exact (max_eq_right (not_lt.1 hge)).symm

/-- Claim C7.  Whenever the computed chroma sqrt(a*a + b*b) is at most
    4e-6, the polar conversion returns hue exactly 0, and the returned
    chroma component is that computed square root. -/
theorem achromatic_hue_forced (ops : TrigOps) (lab : Vec3)
    (h : ops.sqrt (lab.y * lab.y + lab.z * lab.z) ≤ 0.000004) :
    (oklab_to_oklch ops lab).z = 0
  ∧ (oklab_to_oklch ops lab).y = ops.sqrt (lab.y * lab.y + lab.z * lab.z) := by
  unfold oklab_to_oklch
  refine ⟨?_, rfl⟩
  dsimp only
  rw [if_pos h]

/-- Witness for C7: the achromatic OKLab input (1/2, 0, 0) has chroma
    0 and is forced to hue 0. -/
theorem achromatic_hue_forced_witness :
    (oklab_to_oklch testOps (Vec3.mk (1/2) 0 0)).y ≤ 0.000004
  ∧ (oklab_to_oklch testOps (Vec3.mk (1/2) 0 0)).z = 0 :=
  ⟨by norm_num [oklab_to_oklch, testOps],
   (achromatic_hue_forced testOps (Vec3.mk (1/2) 0 0) (by norm_num [testOps])).1⟩

/-- Claim C9.  The band weight is invariant under moving the centre
    from 0 to 360, so the red band accumulates exactly
    2 * hue_shift_red * weight * chroma_weight, twice what an equal
    yellow shift magnitude accumulates through its single window. -/
theorem red_band_double_weight (ops : TrigOps) (p : Params) (lut : ℚ → ℚ → Vec4) (oc oh : ℚ) :
    hue_band_weight ops oh 0 60 = hue_band_weight ops oh 360 60
  ∧ totalHueShift ops p lut oc oh - totalHueShift ops { p with hue_shift_red := 0 } lut oc oh
      = 2 * p.hue_shift_red * hue_band_weight ops oh 0 60 * chromaWeight p oc
  ∧ totalHueShift ops p lut oc oh - totalHueShift ops { p with hue_shift_yellow := 0 } lut oc oh
      = p.hue_shift_yellow * hue_band_weight ops oh 85 60 * chromaWeight p oc := by
  refine ⟨(hue_band_weight_centre_360 ops oh 60).symm, ?_, ?_⟩
  · rw [totalHueShift_unfold, totalHueShift_unfold]
    have hcw : chromaWeight { p with hue_shift_red := 0 } oc = chromaWeight p oc := rfl
    have hsl : sample_hue_lut { p with hue_shift_red := 0 } lut oh = sample_hue_lut p lut oh := rfl
    rw [hcw, hsl]
    dsimp only
    rw [hue_band_weight_centre_360]
    by_cases hg : p.hue_curves_enable ∧ p.hue_lut_connected ∧ 1 < p.hue_lut_width
    · simp only [if_pos hg]
      try ring
    · simp only [if_neg hg]
      try ring
  · rw [totalHueShift_unfold, totalHueShift_unfold]
    have hcw : chromaWeight { p with hue_shift_yellow := 0 } oc = chromaWeight p oc := rfl
    have hsl : sample_hue_lut { p with hue_shift_yellow := 0 } lut oh = sample_hue_lut p lut oh := rfl
    rw [hcw, hsl]
    dsimp only
    by_cases hg : p.hue_curves_enable ∧ p.hue_lut_connected ∧ 1 < p.hue_lut_width
    · simp only [if_pos hg]
      try ring
    · simp only [if_neg hg]
      try ring

/-- Claim C10.  wrap_hue_deg always lands in the half-open interval
    from 0 (inclusive) to 360 (exclusive); the graded hue handed to
    the inverse conversion therefore lies in that interval; and
    shifting by 450 wraps to the same hue as shifting by 90. -/
theorem wrap_hue_range :
    ∀ (h : ℚ) (ops : TrigOps) (p : Params) (lut : ℚ → ℚ → Vec4) (oc oh : ℚ),
    (0 ≤ wrap_hue_deg h ∧ wrap_hue_deg h < 360)
  ∧ wrap_hue_deg (h + 450) = wrap_hue_deg (h + 90)
  ∧ (0 ≤ gradedH ops p lut oc oh ∧ gradedH ops p lut oc oh < 360) := by
  intro h ops p lut oc oh
  refine ⟨wrap_hue_deg_bounds h, ?_, ?_⟩
  · have e : h + 450 = h + 90 + 360 := by ring
    rw [e, wrap_hue_deg_add_360]
  · unfold gradedH
    exact wrap_hue_deg_bounds _

end Oklch
